import Mathlib

/-!
# Verification of the onnx2trt plugin adaptation layer

Shallow embedding of `src/perception/common/onnx_models/onnx-tensorrt/plugin.hpp`
(namespace `onnx2trt`): the `Plugin` base class, the `PluginAdapter` delegator
and the `TypeSerializingPlugin` self-describing wrapper, together with the
type-tagged wire format they produce.

Modelling conventions:
* machine bytes are natural numbers below 256; a byte buffer is a `List Nat`;
* a C string (`const char*`) is the list of its bytes before the terminator;
  `strlen` and C-string writing stop at the first NUL byte, as in C;
* serialization functions thread the output buffer explicitly, mirroring the
  `void*& buffer` cursor of the C++ code: writing appends to the list;
* the repository excerpt contains only `plugin.hpp`; helpers that it declares
  but whose bodies live elsewhere (`serialize.hpp`, `plugin_common.hpp`,
  `plugin.cpp`, `onnx2trt_common.hpp`) are modelled from the spec and are
  marked as such in their doc comments.
-/

namespace Onnx2trt

/-- Byte buffers: a serialized stream is a list of byte values. -/
abbrev Bytes := List Nat

/-- Models `nvinfer1::Dims`: a fixed-capacity shape record with a rank field
`nbDims` (a 32-bit integer) and a dimension array `d` of 8 slots of 32-bit
integers.  The spec calls it a small fixed-rank dimension vector. -/
structure Dims where
  nbDims : Nat
  d : List Nat
deriving DecidableEq, Repr

/-- Wellformedness of a `Dims` value as a bit pattern: the rank and every slot
fit in 32 bits and the array has exactly its 8 declared slots. -/
def Dims.WF (dims : Dims) : Prop :=
  dims.nbDims < 2 ^ 32 ∧ dims.d.length = 8 ∧ ∀ x ∈ dims.d, x < 2 ^ 32

instance (dims : Dims) : Decidable dims.WF := by
  unfold Dims.WF; infer_instance

/-- Models the external ABI enum `nvinfer1::DataType` (the spec: data element
type, e.g. 32-bit float, 16-bit float, 8-bit integer, 32-bit integer). -/
inductive DataType where
  | kFLOAT
  | kHALF
  | kINT8
  | kINT32
deriving DecidableEq, Repr

/-- Numeric tag of a `DataType`, as laid down by the external ABI. -/
def DataType.tag : DataType → Nat
  | .kFLOAT => 0
  | .kHALF => 1
  | .kINT8 => 2
  | .kINT32 => 3

/-- Models the external ABI enum `nvinfer1::PluginFormat` (the spec: data
layout/format tag describing memory ordering). -/
inductive PluginFormat where
  | kLINEAR
  | kCHW2
  | kHWC8
  | kCHW4
deriving DecidableEq, Repr

/-- Numeric tag of a `PluginFormat`, as laid down by the external ABI. -/
def PluginFormat.tag : PluginFormat → Nat
  | .kLINEAR => 0
  | .kCHW2 => 1
  | .kHWC8 => 2
  | .kCHW4 => 3

/-- The cached state of a `Plugin` instance: the four protected fields
`_input_dims`, `_max_batch_size`, `_data_type`, `_data_format` declared in
`plugin.hpp`. -/
structure PluginState where
  input_dims : List Dims
  max_batch_size : Nat
  data_type : DataType
  data_format : PluginFormat
deriving DecidableEq, Repr

namespace Plugin

/-- Models `std::vector::at` called with an `int` index, as in
`Plugin::getInputDims`: the signed index is converted to the unsigned size
type, so a negative index becomes huge and is out of range; an out-of-range
index raises `std::out_of_range` (modelled as `none`) instead of undefined
behavior. -/
def vectorAt (xs : List Dims) (index : Int) : Option Dims :=
  if h : 0 ≤ index ∧ index.toNat < xs.length then some (xs.get ⟨index.toNat, h.2⟩)
  else none

/-- Embeds `Plugin::getInputDims(int index)`, whose body in `plugin.hpp` is
`return _input_dims.at(index);`. -/
def getInputDims (s : PluginState) (index : Int) : Option Dims :=
  vectorAt s.input_dims index

/-- Embeds `Plugin::getMaxBatchSize()`: returns `_max_batch_size`. -/
def getMaxBatchSize (s : PluginState) : Nat := s.max_batch_size

/-- Embeds `Plugin::getDataType()`: returns `_data_type`. -/
def getDataType (s : PluginState) : DataType := s.data_type

/-- Embeds `Plugin::getDataFormat()`: returns `_data_format`. -/
def getDataFormat (s : PluginState) : PluginFormat := s.data_format

/-- Embeds `Plugin::getWorkspaceSize(int)`, whose body in `plugin.hpp` is
`return 0;`.  The state is passed to record that the result reads nothing. -/
def getWorkspaceSize (_s : PluginState) (_maxBatchSize : Int) : Nat := 0

/-- Embeds the C++ initialize lifecycle hook `Plugin::initialize()`, whose
body in `plugin.hpp` is `return 0;`: it returns status 0 and leaves the
instance state untouched. -/
def init (s : PluginState) : Int × PluginState := (0, s)

/-- Embeds `Plugin::terminate()`, whose body in `plugin.hpp` is `{}`: a no-op
on the instance state. -/
def terminate (s : PluginState) : PluginState := s

/-- Modelled from the spec: `Plugin::configureWithFormat` is declared in
`plugin.hpp` but its body lives in a source file outside the excerpt.  Per the
spec it caches `inputDims` (the first `nbInputs` entries of the supplied
array), `type`, `format` and `maxBatchSize` into the instance state; the
output dimensions are not cached. -/
def configureWithFormat (inputDims : List Dims) (nbInputs : Nat)
    (_outputDims : List Dims) (_nbOutputs : Nat) (type : DataType)
    (format : PluginFormat) (maxBatchSize : Nat) (_s : PluginState) :
    PluginState :=
  { input_dims := inputDims.take nbInputs
    max_batch_size := maxBatchSize
    data_type := type
    data_format := format }

end Plugin

/-- The public operations callable on a `Plugin` instance through its base
interface, as declared in `plugin.hpp`.  `destroy` is the teardown entry
point (`delete this`); the destructor itself is protected, so it is absent. -/
inductive PluginOp where
  | getInputDims (index : Int)
  | getMaxBatchSize
  | getDataType
  | getDataFormat
  | getWorkspaceSize (maxBatchSize : Int)
  | init
  | terminate
  | supportsFormat (type : DataType) (format : PluginFormat)
  | configureWithFormat (inputDims : List Dims) (nbInputs : Nat)
      (outputDims : List Dims) (nbOutputs : Nat) (type : DataType)
      (format : PluginFormat) (maxBatchSize : Nat)
  | destroy

/-- Recognizer for the configuration operation. -/
def PluginOp.isConfigure : PluginOp → Bool
  | .configureWithFormat _ _ _ _ _ _ _ => true
  | _ => false

/-- One step of a `Plugin` instance's life: the state after executing a public
operation, or `none` when the operation deallocates the instance.  The bodies
are those of `plugin.hpp` where present (`getWorkspaceSize`, initialize,
`terminate`, the getters, `destroy() { delete this; }`); `configureWithFormat`
and `supportsFormat` are declared there with bodies outside the excerpt, and
are modelled from the spec (`supportsFormat` is const, hence state-preserving;
`configureWithFormat` caches its arguments). -/
def Plugin.step : PluginOp → PluginState → Option PluginState
  | .getInputDims _, s => some s
  | .getMaxBatchSize, s => some s
  | .getDataType, s => some s
  | .getDataFormat, s => some s
  | .getWorkspaceSize _, s => some s
  | .init, s => some (Plugin.init s).2
  | .terminate, s => some (Plugin.terminate s)
  | .supportsFormat _ _, s => some s
  | .configureWithFormat i ni o no t f b, s =>
      some (Plugin.configureWithFormat i ni o no t f b s)
  | .destroy, _ => none

/-! ## C strings and `serialize_value` -/

/-- Length computed by C `strlen`: the number of bytes before the first NUL. -/
def cStrlen (s : Bytes) : Nat := (s.takeWhile (· ≠ 0)).length

/-- Value of the C expression `sizeof(LIT)` for a string literal `LIT` whose
character content is `s`: the whole array, terminator included. -/
def sizeofLiteral (s : Bytes) : Nat := s.length + 1

/-- Modelled from the spec: `serialize_value(&buffer, str)` for a
`const char*` value, declared in `serialize.hpp` (outside the excerpt).  Per
the spec's wire format it writes the string NUL-terminated at the buffer
cursor; as a C-string write it stops at the first NUL of `s`.  The cursor is
modelled by appending to the accumulated output buffer. -/
def serialize_value (buffer : Bytes) (s : Bytes) : Bytes :=
  buffer ++ (s.takeWhile (· ≠ 0) ++ [0])

/-- A wrapped `Plugin`-derived instance as seen through the virtual interface
used by `TypeSerializingPlugin`: its type name (the `getPluginType` result,
a C string), its cached base state, the byte sequence its virtual `serialize`
writes, and the count its virtual `getSerializationSize` reports. -/
structure WrappedPlugin where
  plugin_type : Bytes
  st : PluginState
  serializedBytes : Bytes
  serializationSize : Nat
deriving DecidableEq, Repr

/-- Result of the wrapped plugin's virtual `getPluginType()`. -/
def WrappedPlugin.getPluginType (p : WrappedPlugin) : Bytes := p.plugin_type

/-- The wrapped plugin's virtual `serialize(buffer)`: writes its
`serializedBytes` at the buffer cursor. -/
def WrappedPlugin.serialize (p : WrappedPlugin) (buffer : Bytes) : Bytes :=
  buffer ++ p.serializedBytes

/-- The wrapped plugin's virtual `getSerializationSize()`. -/
def WrappedPlugin.getSerializationSize (p : WrappedPlugin) : Nat :=
  p.serializationSize

/-! ## TypeSerializingPlugin

The magic marker constant `REGISTERABLE_PLUGIN_MAGIC_STRING` is defined in
`plugin_common.hpp`, outside the excerpt; modelled from the spec it is a fixed
marker constant, so the definitions below are parameterized by its character
content `magic`. -/

/-- A `TypeSerializingPlugin` instance: holds the wrapped plugin (the C++
class stores it twice, as the owning handle `_owned_plugin` and the typed raw
pointer `_plugin`, both set from the same constructor argument). -/
structure TypeSerializingPlugin where
  _plugin : WrappedPlugin
deriving DecidableEq, Repr

namespace TypeSerializingPlugin

/-- Embeds `TypeSerializingPlugin::serialize(void* buffer)` from `plugin.hpp`:
`serialize_value(&buffer, REGISTERABLE_PLUGIN_MAGIC_STRING)`, then
`serialize_value(&buffer, plugin_type)`, then `return _plugin->serialize(buffer)`. -/
def serialize (magic : Bytes) (ts : TypeSerializingPlugin) (buffer : Bytes) :
    Bytes :=
  let plugin_type := WrappedPlugin.getPluginType ts._plugin
  let buffer := serialize_value buffer magic
  let buffer := serialize_value buffer plugin_type
  WrappedPlugin.serialize ts._plugin buffer

/-- Embeds `TypeSerializingPlugin::getSerializationSize()` from `plugin.hpp`:
`sizeof(REGISTERABLE_PLUGIN_MAGIC_STRING) + 1 + strlen(plugin_type) +
_plugin->getSerializationSize()`. -/
def getSerializationSize (magic : Bytes) (ts : TypeSerializingPlugin) : Nat :=
  let plugin_type := WrappedPlugin.getPluginType ts._plugin
  sizeofLiteral magic + 1 + cStrlen plugin_type +
    WrappedPlugin.getSerializationSize ts._plugin

/-- Embeds `TypeSerializingPlugin::getPluginType()` from `plugin.hpp`:
`return _plugin->getPluginType();`. -/
def getPluginType (ts : TypeSerializingPlugin) : Bytes :=
  WrappedPlugin.getPluginType ts._plugin

end TypeSerializingPlugin

/-! ## Teardown of a TypeSerializingPlugin -/

/-- Observable deallocation events during teardown of a
`TypeSerializingPlugin`. -/
inductive TeardownEvent where
  | wrapperDeleted
  | wrappedDestroyed
deriving DecidableEq, Repr

/-- Modelled from the spec: the owning handle `UniqueOwnable` (declared in
`onnx2trt_common.hpp`, outside the excerpt) has exclusive-ownership smart
pointer semantics, so its destructor triggers the owned plugin's teardown
exactly once. -/
def UniqueOwnable.teardown : List TeardownEvent := [.wrappedDestroyed]

/-- Embeds `TypeSerializingPlugin::destroy()` from `plugin.hpp`:
`delete this` frees the wrapper and runs its destructor, which destroys each
member once — the raw pointer `_plugin` (no event) and the owning handle
`_owned_plugin` (whose teardown destroys the wrapped plugin). -/
def TypeSerializingPlugin.destroyTrace : List TeardownEvent :=
  .wrapperDeleted :: UniqueOwnable.teardown

/-! ## PluginAdapter

`PluginAdapter`'s method bodies are declared in `plugin.hpp` but implemented
outside the excerpt; modelled from the spec, every operation is forwarded
verbatim to the wrapped object with unchanged arguments and results. -/

/-- The wrapped raw plugin object (`nvinfer1::IPluginV2*`) as the bundle of
responses of its virtual operations.  Pointer-typed execution arguments
(input/output buffer pointer arrays, workspace pointer, stream handle) are
opaque handles, modelled as naturals. -/
structure IPluginV2 where
  getNbOutputs : Int
  getOutputDimensions : Int → List Dims → Int → Dims
  serialize : Bytes → Bytes
  getSerializationSize : Nat
  init : Int
  terminate : Nat
  supportsFormat : DataType → PluginFormat → Bool
  configureWithFormat : List Dims → Int → List Dims → Int → DataType →
    PluginFormat → Int → Nat
  getWorkspaceSize : Int → Nat
  enqueue : Int → Nat → Nat → Nat → Nat → Int

/-- A `PluginAdapter` instance: constructed from the raw plugin pointer it
stores in `_plugin` (the `_ext` capability pointer is the dynamic cast of the
same object). -/
structure PluginAdapter where
  _plugin : IPluginV2

namespace PluginAdapter

/-- Modelled from the spec: forwards to `_plugin->getNbOutputs()`. -/
def getNbOutputs (a : PluginAdapter) : Int := a._plugin.getNbOutputs

/-- Modelled from the spec: forwards to `_plugin->getOutputDimensions`. -/
def getOutputDimensions (a : PluginAdapter) (index : Int)
    (inputDims : List Dims) (nbInputs : Int) : Dims :=
  a._plugin.getOutputDimensions index inputDims nbInputs

/-- Modelled from the spec: forwards to `_plugin->serialize(buffer)`. -/
def serialize (a : PluginAdapter) (buffer : Bytes) : Bytes :=
  a._plugin.serialize buffer

/-- Modelled from the spec: forwards to `_plugin->getSerializationSize()`. -/
def getSerializationSize (a : PluginAdapter) : Nat :=
  a._plugin.getSerializationSize

/-- Modelled from the spec: forwards to the wrapped object's initialize. -/
def init (a : PluginAdapter) : Int := a._plugin.init

/-- Modelled from the spec: forwards to `_plugin->terminate()`. -/
def terminate (a : PluginAdapter) : Nat := a._plugin.terminate

/-- Modelled from the spec: forwards to `_plugin->supportsFormat`. -/
def supportsFormat (a : PluginAdapter) (type : DataType)
    (format : PluginFormat) : Bool :=
  a._plugin.supportsFormat type format

/-- Modelled from the spec: forwards to `_plugin->configureWithFormat`. -/
def configureWithFormat (a : PluginAdapter) (inputDims : List Dims)
    (nbInputs : Int) (outputDims : List Dims) (nbOutputs : Int)
    (type : DataType) (format : PluginFormat) (maxBatchSize : Int) : Nat :=
  a._plugin.configureWithFormat inputDims nbInputs outputDims nbOutputs type
    format maxBatchSize

/-- Modelled from the spec: forwards to `_plugin->getWorkspaceSize`. -/
def getWorkspaceSize (a : PluginAdapter) (maxBatchSize : Int) : Nat :=
  a._plugin.getWorkspaceSize maxBatchSize

/-- Modelled from the spec: forwards to `_plugin->enqueue` with batch size,
input pointers, output pointers, workspace and stream unchanged. -/
def enqueue (a : PluginAdapter) (batchSize : Int) (inputs outputs : Nat)
    (workspace : Nat) (stream : Nat) : Int :=
  a._plugin.enqueue batchSize inputs outputs workspace stream

end PluginAdapter

/-! ## Base-field wire encoding

`serializeBase`, `deserializeBase` and the primitives of `serialize.hpp` they
use are declared in the excerpt but implemented outside it.  Modelled from the
spec: the base serialization block is `[input dims array][max batch size]
[data type tag][data format tag]`, with field widths matching the host's
native types (raw `nvinfer1::Dims` structs of one 32-bit rank plus eight
32-bit slots, a 64-bit `size_t` element count and batch size, 32-bit enum
tags), written little-endian as on the target platform. -/

/-- Little-endian encoding of a natural in `w` bytes. -/
def natLE : Nat → Nat → Bytes
  | 0, _ => []
  | w + 1, v => v % 256 :: natLE w (v / 256)

/-- Little-endian decoding of a byte list into a natural. -/
def bytesToNatLE : Bytes → Nat
  | [] => 0
  | b :: rest => b % 256 + 256 * bytesToNatLE rest

/-- Reads `w` raw bytes from the front of the stream; fails when the stream
is too short (the deserializer checks the remaining length). -/
def readBytes (w : Nat) (b : Bytes) : Option (Bytes × Bytes) :=
  if w ≤ b.length then some (b.take w, b.drop w) else none

/-- Reads a `w`-byte little-endian natural from the stream. -/
def readNatLE (w : Nat) (b : Bytes) : Option (Nat × Bytes) :=
  match readBytes w b with
  | none => none
  | some (x, rest) => some (bytesToNatLE x, rest)

/-- Reads `count` consecutive `w`-byte little-endian naturals. -/
def readNatList (w : Nat) : Nat → Bytes → Option (List Nat × Bytes)
  | 0, b => some ([], b)
  | count + 1, b =>
    match readNatLE w b with
    | none => none
    | some (x, rest) =>
      match readNatList w count rest with
      | none => none
      | some (xs, rest2) => some (x :: xs, rest2)

/-- Serialized form of one raw `nvinfer1::Dims` struct: the 32-bit rank
followed by the eight 32-bit dimension slots. -/
def serializeDims (dims : Dims) : Bytes :=
  natLE 4 dims.nbDims ++ (dims.d.map (natLE 4)).flatten

/-- Reads one raw `nvinfer1::Dims` struct back. -/
def readDims (b : Bytes) : Option (Dims × Bytes) :=
  match readNatLE 4 b with
  | none => none
  | some (n, rest) =>
    match readNatList 4 8 rest with
    | none => none
    | some (xs, rest2) => some (⟨n, xs⟩, rest2)

/-- Serialized form of the `_input_dims` vector: the 64-bit element count,
then each element's raw struct. -/
def serializeDimsVector (v : List Dims) : Bytes :=
  natLE 8 v.length ++ (v.map serializeDims).flatten

/-- Reads `count` consecutive raw `Dims` structs. -/
def readDimsList : Nat → Bytes → Option (List Dims × Bytes)
  | 0, b => some ([], b)
  | count + 1, b =>
    match readDims b with
    | none => none
    | some (dims, rest) =>
      match readDimsList count rest with
      | none => none
      | some (xs, rest2) => some (dims :: xs, rest2)

/-- Reads the `_input_dims` vector back: count, then that many structs. -/
def readDimsVector (b : Bytes) : Option (List Dims × Bytes) :=
  match readNatLE 8 b with
  | none => none
  | some (count, rest) => readDimsList count rest

/-- Decodes a 32-bit data-type tag back into the enum; an unknown tag fails. -/
def DataType.ofTag (t : Nat) : Option DataType :=
  if t = 0 then some .kFLOAT
  else if t = 1 then some .kHALF
  else if t = 2 then some .kINT8
  else if t = 3 then some .kINT32
  else none

/-- Decodes a 32-bit format tag back into the enum; an unknown tag fails. -/
def PluginFormat.ofTag (t : Nat) : Option PluginFormat :=
  if t = 0 then some .kLINEAR
  else if t = 1 then some .kCHW2
  else if t = 2 then some .kHWC8
  else if t = 3 then some .kCHW4
  else none

/-- Modelled from the spec: `Plugin::serializeBase` writes the four cached
fields in the fixed order dims array, max batch size, data type tag, data
format tag. -/
def Plugin.serializeBase (s : PluginState) : Bytes :=
  serializeDimsVector s.input_dims ++ natLE 8 s.max_batch_size ++
    natLE 4 (DataType.tag s.data_type) ++ natLE 4 (PluginFormat.tag s.data_format)

/-- Modelled from the spec: `Plugin::deserializeBase` consumes the four base
fields from the front of the serialized data, leaving the subclass fields. -/
def Plugin.deserializeBase (b : Bytes) : Option (PluginState × Bytes) :=
  match readDimsVector b with
  | none => none
  | some (dims, r1) =>
    match readNatLE 8 r1 with
    | none => none
    | some (mbs, r2) =>
      match readNatLE 4 r2 with
      | none => none
      | some (ttag, r3) =>
        match DataType.ofTag ttag with
        | none => none
        | some t =>
          match readNatLE 4 r3 with
          | none => none
          | some (ftag, r4) =>
            match PluginFormat.ofTag ftag with
            | none => none
            | some f => some (⟨dims, mbs, t, f⟩, r4)

/-- Reads a NUL-terminated C string from the stream: the bytes before the
first NUL, and the rest after it; fails when no NUL arrives. -/
def readCString : Bytes → Option (Bytes × Bytes)
  | [] => none
  | c :: rest =>
    if c = 0 then some ([], rest)
    else
      match readCString rest with
      | none => none
      | some (s, r) => some (c :: s, r)

/-- Modelled from the spec: the factory-side deserialization path for a
self-describing plugin — read the magic marker and reject a mismatch, read
the NUL-terminated type name, then hand the remaining bytes to the concrete
constructor, which calls `deserializeBase` first; the operator-specific
payload is what remains.  Returns the recovered type name, the rehydrated
base state and the payload. -/
def deserializePlugin (magic : Bytes) (b : Bytes) :
    Option (Bytes × PluginState × Bytes) :=
  match readCString b with
  | none => none
  | some (m, r1) =>
    if m = magic then
      match readCString r1 with
      | none => none
      | some (ty, r2) =>
        match Plugin.deserializeBase r2 with
        | none => none
        | some (st, payload) => some (ty, st, payload)
    else none

/-- Wellformedness of a plugin state as a bit pattern: every cached dims value
is wellformed and the counts fit their 64-bit fields. -/
def PluginState.WF (s : PluginState) : Prop :=
  (∀ dims ∈ s.input_dims, dims.WF) ∧ s.input_dims.length < 2 ^ 64 ∧
    s.max_batch_size < 2 ^ 64

instance (s : PluginState) : Decidable s.WF := by
  unfold PluginState.WF; infer_instance

/-! ## Sample instances

Concrete values following the spec's example scenario (a plugin of type name
"MyOp", two inputs of shapes [1,3,224,224] and [1,64], batch size 8, float32,
linear format), used to instantiate the universally quantified theorems. -/

/-- Sample shape [1,3,224,224] padded to the 8 slots of `nvinfer1::Dims`. -/
def sampleDims1 : Dims := ⟨4, [1, 3, 224, 224, 0, 0, 0, 0]⟩

/-- Sample shape [1,64] padded to the 8 slots of `nvinfer1::Dims`. -/
def sampleDims2 : Dims := ⟨2, [1, 64, 0, 0, 0, 0, 0, 0]⟩

/-- Sample configured state: the spec's example scenario. -/
def sampleState : PluginState := ⟨[sampleDims1, sampleDims2], 8, .kFLOAT, .kLINEAR⟩

/-- Sample character content for the magic marker constant. -/
def sampleMagic : Bytes := [79, 78, 78, 88]

/-- Byte content of the sample type name "MyOp". -/
def sampleType : Bytes := [77, 121, 79, 112]

/-- Sample wrapped plugin: serializes its base fields first, then a two-byte
operator-specific payload, and reports the matching size. -/
def sampleWrapped : WrappedPlugin :=
  ⟨sampleType, sampleState, Plugin.serializeBase sampleState ++ [7, 7],
    (Plugin.serializeBase sampleState ++ [7, 7]).length⟩

/-- Sample self-describing wrapper around `sampleWrapped`. -/
def sampleTS : TypeSerializingPlugin := ⟨sampleWrapped⟩

/-! ## Helper lemmas on the byte primitives -/

theorem natLE_length : ∀ (w v : Nat), (natLE w v).length = w
  | 0, _ => rfl
  | w + 1, v => by simp [natLE, natLE_length w (v / 256)]

theorem bytesToNatLE_natLE : ∀ (w v : Nat), v < 256 ^ w →
    bytesToNatLE (natLE w v) = v := by
  intro w
  induction w with
  | zero =>
    intro v hv
    simp [natLE, bytesToNatLE]
    omega
  | succ k ih =>
    intro v hv
    have hdiv : v / 256 < 256 ^ k := by
      apply Nat.div_lt_of_lt_mul
      rw [mul_comm, ← pow_succ]
      exact hv
    simp only [natLE, bytesToNatLE, ih (v / 256) hdiv]
    omega

theorem take_append_of_length (l₁ l₂ : List Nat) (w : Nat) (h : l₁.length = w) :
    (l₁ ++ l₂).take w = l₁ := by
  subst h; exact List.take_left l₁ l₂

theorem drop_append_of_length (l₁ l₂ : List Nat) (w : Nat) (h : l₁.length = w) :
    (l₁ ++ l₂).drop w = l₂ := by
  subst h; exact List.drop_left l₁ l₂

theorem readNatLE_append (w v : Nat) (rest : Bytes) (h : v < 256 ^ w) :
    readNatLE w (natLE w v ++ rest) = some (v, rest) := by
  have hlen := natLE_length w v
  have hle : w ≤ (natLE w v ++ rest).length := by simp [hlen]
  simp only [readNatLE, readBytes, if_pos hle]
  rw [take_append_of_length _ _ _ hlen, drop_append_of_length _ _ _ hlen,
    bytesToNatLE_natLE w v h]

theorem readNatList_append (w : Nat) : ∀ (xs : List Nat) (rest : Bytes),
    (∀ x ∈ xs, x < 256 ^ w) →
    readNatList w xs.length ((xs.map (natLE w)).flatten ++ rest) =
      some (xs, rest) := by
  intro xs
  induction xs with
  | nil => intro rest _; simp [readNatList]
  | cons x t ih =>
    intro rest hb
    have hx : x < 256 ^ w := hb x (List.mem_cons_self x t)
    have ht : ∀ y ∈ t, y < 256 ^ w := fun y hy => hb y (List.mem_cons_of_mem x hy)
    simp only [List.length_cons, List.map_cons, List.flatten_cons, readNatList,
      List.append_assoc, readNatLE_append w x _ hx, ih _ ht]

theorem readDims_append (dims : Dims) (rest : Bytes) (h : dims.WF) :
    readDims (serializeDims dims ++ rest) = some (dims, rest) := by
  obtain ⟨hn, hlen, hd⟩ := h
  have hb : ∀ x ∈ dims.d, x < 256 ^ 4 := by
    intro x hx
    have := hd x hx
    norm_num at this ⊢
    omega
  have hn4 : dims.nbDims < 256 ^ 4 := by norm_num; omega
  simp only [serializeDims, readDims, List.append_assoc,
    readNatLE_append 4 dims.nbDims _ hn4]
  rw [← hlen, readNatList_append 4 dims.d rest hb]

theorem readDimsList_append : ∀ (v : List Dims) (rest : Bytes),
    (∀ dims ∈ v, dims.WF) →
    readDimsList v.length ((v.map serializeDims).flatten ++ rest) =
      some (v, rest) := by
  intro v
  induction v with
  | nil => intro rest _; simp [readDimsList]
  | cons dims t ih =>
    intro rest hwf
    have h1 : dims.WF := hwf dims (List.mem_cons_self dims t)
    have h2 : ∀ x ∈ t, x.WF := fun x hx => hwf x (List.mem_cons_of_mem dims hx)
    simp only [List.length_cons, List.map_cons, List.flatten_cons, readDimsList,
      List.append_assoc, readDims_append dims _ h1, ih _ h2]

theorem readDimsVector_append (v : List Dims) (rest : Bytes)
    (hwf : ∀ dims ∈ v, dims.WF) (hlen : v.length < 2 ^ 64) :
    readDimsVector (serializeDimsVector v ++ rest) = some (v, rest) := by
  have h8 : v.length < 256 ^ 8 := by norm_num; omega
  simp only [serializeDimsVector, readDimsVector, List.append_assoc,
    readNatLE_append 8 v.length _ h8, readDimsList_append v rest hwf]

theorem dataType_ofTag_tag (t : DataType) :
    DataType.ofTag (DataType.tag t) = some t := by
  cases t <;> rfl

theorem pluginFormat_ofTag_tag (f : PluginFormat) :
    PluginFormat.ofTag (PluginFormat.tag f) = some f := by
  cases f <;> rfl

theorem deserializeBase_serializeBase (s : PluginState) (rest : Bytes)
    (h : s.WF) :
    Plugin.deserializeBase (Plugin.serializeBase s ++ rest) = some (s, rest) := by
  obtain ⟨hdims, hcount, hmbs⟩ := h
  have hm8 : s.max_batch_size < 256 ^ 8 := by norm_num; omega
  have ht4 : DataType.tag s.data_type < 256 ^ 4 := by
    cases s.data_type <;> norm_num [DataType.tag]
  have hf4 : PluginFormat.tag s.data_format < 256 ^ 4 := by
    cases s.data_format <;> norm_num [PluginFormat.tag]
  simp only [Plugin.serializeBase, Plugin.deserializeBase, List.append_assoc,
    readDimsVector_append s.input_dims _ hdims hcount,
    readNatLE_append 8 s.max_batch_size _ hm8,
    readNatLE_append 4 (DataType.tag s.data_type) _ ht4,
    readNatLE_append 4 (PluginFormat.tag s.data_format) _ hf4,
    dataType_ofTag_tag, pluginFormat_ofTag_tag]

theorem takeWhile_of_nul_free (s : Bytes) (h : 0 ∉ s) :
    s.takeWhile (· ≠ 0) = s := by
  induction s with
  | nil => rfl
  | cons c t ih =>
    rw [List.mem_cons, not_or] at h
    have hc : c ≠ 0 := fun hc0 => h.1 (hc0 ▸ rfl)
    rw [List.takeWhile_cons, if_pos (by simp [hc]), ih h.2]

theorem readCString_append (s rest : Bytes) (h : 0 ∉ s) :
    readCString (s ++ 0 :: rest) = some (s, rest) := by
  induction s with
  | nil => simp [readCString]
  | cons c t ih =>
    rw [List.mem_cons, not_or] at h
    have hc : ¬ c = 0 := fun hc0 => h.1 (hc0 ▸ rfl)
    simp only [List.cons_append, readCString, if_neg hc, List.append_eq, ih h.2]

/-- Shared helper: the exact byte stream written by
`TypeSerializingPlugin::serialize` when the magic marker and the type name
are NUL-free. -/
theorem serialize_bytes_eq (magic : Bytes) (ts : TypeSerializingPlugin)
    (buffer : Bytes) (hm : 0 ∉ magic)
    (ht : 0 ∉ WrappedPlugin.getPluginType ts._plugin) :
    TypeSerializingPlugin.serialize magic ts buffer =
      buffer ++ ((magic ++ [0]) ++ ((WrappedPlugin.getPluginType ts._plugin ++ [0]) ++
        ts._plugin.serializedBytes)) := by
  simp only [TypeSerializingPlugin.serialize, serialize_value,
    WrappedPlugin.serialize, takeWhile_of_nul_free magic hm,
    takeWhile_of_nul_free _ ht, List.append_assoc]

/-! ## Claim theorems -/

/-- C1: for every `TypeSerializingPlugin` whose wrapped plugin's own
`getSerializationSize` matches its own `serialize`, the wrapper's
`getSerializationSize()` equals the number of bytes its `serialize()` writes
past the supplied buffer cursor, and that count is
`sizeof(REGISTERABLE_PLUGIN_MAGIC_STRING) + 1 + strlen(type name) + wrapped
size`. -/
theorem ts_getSerializationSize_matches_serialize (magic : Bytes)
    (ts : TypeSerializingPlugin) (buffer : Bytes) (hm : 0 ∉ magic)
    (hw : WrappedPlugin.getSerializationSize ts._plugin =
      ts._plugin.serializedBytes.length) :
    (TypeSerializingPlugin.serialize magic ts buffer).length =
      buffer.length + TypeSerializingPlugin.getSerializationSize magic ts ∧
    TypeSerializingPlugin.getSerializationSize magic ts =
      sizeofLiteral magic + 1 + cStrlen (WrappedPlugin.getPluginType ts._plugin) +
        WrappedPlugin.getSerializationSize ts._plugin := by
  constructor
  · simp only [TypeSerializingPlugin.serialize,
      TypeSerializingPlugin.getSerializationSize, serialize_value,
      WrappedPlugin.serialize, hw, sizeofLiteral, cStrlen,
      takeWhile_of_nul_free magic hm, List.length_append, List.length_cons,
      List.length_nil]
    omega
  · rfl

/-- Witness for C1 at the sample instance. -/
theorem ts_getSerializationSize_matches_serialize_witness :
    (TypeSerializingPlugin.serialize sampleMagic sampleTS []).length =
      List.length ([] : Bytes) +
        TypeSerializingPlugin.getSerializationSize sampleMagic sampleTS ∧
    TypeSerializingPlugin.getSerializationSize sampleMagic sampleTS =
      sizeofLiteral sampleMagic + 1 +
        cStrlen (WrappedPlugin.getPluginType sampleTS._plugin) +
        WrappedPlugin.getSerializationSize sampleTS._plugin :=
  ts_getSerializationSize_matches_serialize sampleMagic sampleTS []
    (by decide) (by decide)

/-- C2: for every `TypeSerializingPlugin`, `serialize(buffer)` writes, in
order, the magic marker constant (in its NUL-terminated literal form), then
the wrapped plugin's type name as a NUL-terminated string, then exactly the
bytes the wrapped plugin's own `serialize` writes. -/
theorem ts_serialize_wire_format (magic : Bytes) (ts : TypeSerializingPlugin)
    (buffer : Bytes) (hm : 0 ∉ magic)
    (ht : 0 ∉ WrappedPlugin.getPluginType ts._plugin) :
    TypeSerializingPlugin.serialize magic ts buffer =
      buffer ++ ((magic ++ [0]) ++ ((WrappedPlugin.getPluginType ts._plugin ++ [0]) ++
        ts._plugin.serializedBytes)) :=
  serialize_bytes_eq magic ts buffer hm ht

/-- Witness for C2 at the sample instance. -/
theorem ts_serialize_wire_format_witness :
    TypeSerializingPlugin.serialize sampleMagic sampleTS [9] =
      [9] ++ ((sampleMagic ++ [0]) ++
        ((WrappedPlugin.getPluginType sampleTS._plugin ++ [0]) ++
        sampleTS._plugin.serializedBytes)) :=
  ts_serialize_wire_format sampleMagic sampleTS [9] (by decide) (by decide)

/-- C3: round-trip — deserializing the buffer produced by `serialize()` (magic
and type-name header, then `deserializeBase`, then the operator payload)
recovers the original type name, the four cached base fields bit-identically,
and the operator payload, for every configured wrapped plugin following the
base-then-subclass serialization convention. -/
theorem ts_serialize_roundtrip (magic extra : Bytes)
    (ts : TypeSerializingPlugin) (hm : 0 ∉ magic)
    (ht : 0 ∉ WrappedPlugin.getPluginType ts._plugin)
    (hwf : PluginState.WF ts._plugin.st)
    (hconv : ts._plugin.serializedBytes =
      Plugin.serializeBase ts._plugin.st ++ extra) :
    deserializePlugin magic (TypeSerializingPlugin.serialize magic ts []) =
      some (TypeSerializingPlugin.getPluginType ts, ts._plugin.st, extra) := by
  rw [serialize_bytes_eq magic ts [] hm ht, hconv]
  simp only [List.nil_append, List.append_assoc, List.singleton_append]
  simp only [deserializePlugin, readCString_append magic _ hm,
    readCString_append _ _ ht, if_pos,
    deserializeBase_serializeBase _ _ hwf,
    TypeSerializingPlugin.getPluginType]

/-- Witness for C3 at the sample instance: the recovered triple is the sample
type name, the sample state and the sample payload. -/
theorem ts_serialize_roundtrip_witness :
    deserializePlugin sampleMagic
        (TypeSerializingPlugin.serialize sampleMagic sampleTS []) =
      some (TypeSerializingPlugin.getPluginType sampleTS,
        sampleTS._plugin.st, [7, 7]) :=
  ts_serialize_roundtrip sampleMagic [7, 7] sampleTS (by decide) (by decide)
    (by decide) rfl

/-- C4: for every `PluginAdapter` and every choice of arguments, each of the
ten forwarded operations returns exactly the wrapped object's result with
unchanged arguments — in particular, for any sentinel-returning wrapped
plugin, the adapter yields the identical sentinel. -/
theorem adapter_forwards_every_operation (w : IPluginV2)
    (index nbInputs nbOutputs batchSize maxBatchSize : Int)
    (inputDims outputDims : List Dims) (buffer : Bytes) (type : DataType)
    (format : PluginFormat) (inputs outputs workspace stream : Nat) :
    PluginAdapter.getNbOutputs ⟨w⟩ = w.getNbOutputs ∧
    PluginAdapter.getOutputDimensions ⟨w⟩ index inputDims nbInputs =
      w.getOutputDimensions index inputDims nbInputs ∧
    PluginAdapter.serialize ⟨w⟩ buffer = w.serialize buffer ∧
    PluginAdapter.getSerializationSize ⟨w⟩ = w.getSerializationSize ∧
    PluginAdapter.init ⟨w⟩ = w.init ∧
    PluginAdapter.terminate ⟨w⟩ = w.terminate ∧
    PluginAdapter.supportsFormat ⟨w⟩ type format = w.supportsFormat type format ∧
    PluginAdapter.configureWithFormat ⟨w⟩ inputDims nbInputs outputDims
        nbOutputs type format maxBatchSize =
      w.configureWithFormat inputDims nbInputs outputDims nbOutputs type
        format maxBatchSize ∧
    PluginAdapter.getWorkspaceSize ⟨w⟩ maxBatchSize =
      w.getWorkspaceSize maxBatchSize ∧
    PluginAdapter.enqueue ⟨w⟩ batchSize inputs outputs workspace stream =
      w.enqueue batchSize inputs outputs workspace stream :=
  ⟨rfl, rfl, rfl, rfl, rfl, rfl, rfl, rfl, rfl, rfl⟩

/-- C5: destroying a `TypeSerializingPlugin` frees the wrapper and causes the
wrapped plugin's destruction exactly once — neither zero times nor twice. -/
theorem ts_destroy_destroys_wrapped_exactly_once :
    TypeSerializingPlugin.destroyTrace.count TeardownEvent.wrappedDestroyed = 1 ∧
    TeardownEvent.wrapperDeleted ∈ TypeSerializingPlugin.destroyTrace := by
  decide

/-- C6: `configureWithFormat` caches the input dims, data type, format and max
batch size into the instance state, and no other (non-destroying) base-class
operation changes any of those four fields afterwards. -/
theorem configureWithFormat_caches_fields_immutable
    (inputDims outputDims : List Dims) (nbInputs nbOutputs : Nat)
    (type : DataType) (format : PluginFormat) (maxBatchSize : Nat)
    (s s' : PluginState) (op : PluginOp) :
    Plugin.step (.configureWithFormat inputDims nbInputs outputDims nbOutputs
        type format maxBatchSize) s =
      some ⟨inputDims.take nbInputs, maxBatchSize, type, format⟩ ∧
    (PluginOp.isConfigure op = false → Plugin.step op s = some s' →
      s'.input_dims = s.input_dims ∧ s'.max_batch_size = s.max_batch_size ∧
      s'.data_type = s.data_type ∧ s'.data_format = s.data_format) := by
  refine ⟨rfl, fun hop hstep => ?_⟩
  cases op <;>
    first
      | exact Option.noConfusion hstep
      | (have h := Option.some.inj hstep
         subst h
         exact ⟨rfl, rfl, rfl, rfl⟩)
      | simp [PluginOp.isConfigure] at hop

/-- Witness for C6: configuring the sample state with the sample arguments
caches them, and a `terminate` call leaves every cached field unchanged. -/
theorem configureWithFormat_caches_fields_immutable_witness :
    Plugin.step (.configureWithFormat [sampleDims1] 1 [] 0 DataType.kFLOAT
        PluginFormat.kLINEAR 8) sampleState =
      some ⟨[sampleDims1].take 1, 8, DataType.kFLOAT, PluginFormat.kLINEAR⟩ ∧
    ((Plugin.terminate sampleState).input_dims = sampleState.input_dims ∧
      (Plugin.terminate sampleState).max_batch_size = sampleState.max_batch_size ∧
      (Plugin.terminate sampleState).data_type = sampleState.data_type ∧
      (Plugin.terminate sampleState).data_format = sampleState.data_format) :=
  ⟨(configureWithFormat_caches_fields_immutable [sampleDims1] [] 1 0
      DataType.kFLOAT PluginFormat.kLINEAR 8 sampleState
      (Plugin.terminate sampleState) .terminate).1,
   (configureWithFormat_caches_fields_immutable [sampleDims1] [] 1 0
      DataType.kFLOAT PluginFormat.kLINEAR 8 sampleState
      (Plugin.terminate sampleState) .terminate).2 rfl rfl⟩

/-- C7: in every state, the base-class defaults hold — `getWorkspaceSize`
returns 0, the initialize hook returns status 0 without touching the state,
and `terminate` leaves the state unchanged. -/
theorem base_class_defaults (s : PluginState) (maxBatchSize : Int) :
    Plugin.getWorkspaceSize s maxBatchSize = 0 ∧
    (Plugin.init s).1 = 0 ∧ (Plugin.init s).2 = s ∧
    Plugin.terminate s = s :=
  ⟨rfl, rfl, rfl, rfl⟩

/-- C8: among the public base-interface operations, `destroy` — and only
`destroy` — deallocates the instance: a step yields no successor state
exactly when the operation is `destroy` (the destructor is protected, so no
other public path tears the instance down). -/
theorem destroy_only_teardown_path (op : PluginOp) (s : PluginState) :
    Plugin.step op s = none ↔ op = PluginOp.destroy := by
  cases op <;> simp [Plugin.step]

/-- C9: the wrapper's `getPluginType()` returns exactly the wrapped plugin's
`getPluginType()` result. -/
theorem ts_getPluginType_forwards (ts : TypeSerializingPlugin) :
    TypeSerializingPlugin.getPluginType ts =
      WrappedPlugin.getPluginType ts._plugin :=
  rfl

/-- C10: `getInputDims` is bounds-checked — a valid index returns the dims
cached at that position, and any other index (negative, or past the end of
the cached vector) raises the out-of-range error of `std::vector::at` rather
than exhibiting undefined behavior. -/
theorem getInputDims_bounds_checked (s : PluginState) (index : Int) :
    (∀ h0 : 0 ≤ index, ∀ hlt : index.toNat < s.input_dims.length,
      Plugin.getInputDims s index =
        some (s.input_dims.get ⟨index.toNat, hlt⟩)) ∧
    (¬(0 ≤ index ∧ index.toNat < s.input_dims.length) →
      Plugin.getInputDims s index = none) := by
  constructor
  · intro h0 hlt
    unfold Plugin.getInputDims Plugin.vectorAt
    rw [dif_pos ⟨h0, hlt⟩]
  · intro h
    unfold Plugin.getInputDims Plugin.vectorAt
    rw [dif_neg h]

/-- Witness for C10: on the sample state, index 0 returns the first cached
dims and the negative index -1 raises the out-of-range error. -/
theorem getInputDims_bounds_checked_witness :
    Plugin.getInputDims sampleState 0 = some sampleDims1 ∧
    Plugin.getInputDims sampleState (-1) = none :=
  ⟨(getInputDims_bounds_checked sampleState 0).1 (by decide) (by decide),
   (getInputDims_bounds_checked sampleState (-1)).2 (by decide)⟩

end Onnx2trt
